import Mathlib

/-!
Shallow embedding of `src/app/core/data/bitstream-data.service.ts`
(BitstreamDataService) from davidatmire/dspace-angular, together with the
collaborator surface it uses (`BundleDataService.findByItemAndName` and the
inherited `DataService.findAllByHref`).  Observables are modelled pointwise:
a collaborator is a function producing the wrapper it emits, and each service
method is the per-emission transformation the rxjs pipeline performs.
-/

namespace DSpace

/-- ErrorInfo / RemoteDataError: `{ statusCode, statusText, message }`
(from `remote-data-error.ts`, as used by the service). -/
structure RemoteDataError where
  statusCode : Nat
  statusText : String
  message : String
deriving DecidableEq, Repr

/-- RemoteData wrapper: the source encodes the lifecycle as independent
booleans plus optional error and payload (`remote-data.ts` constructor order:
requestPending, responsePending, hasSucceeded, error, payload). -/
structure RemoteData (α : Type) where
  isRequestPending : Bool
  isResponsePending : Bool
  hasSucceeded : Bool
  error : Option RemoteDataError
  payload : Option α
deriving DecidableEq, Repr

/-- PaginatedList: only the `page` field is read by the service.  In TS the
field can be `undefined` (the service guards it with `hasValue`), hence
`Option`. -/
structure PaginatedList (α : Type) where
  page : Option (List α)
deriving DecidableEq, Repr

/-- Bitstream: the service reads only `name` (plus identity).  `name` is a
string; `uuid` distinguishes bitstreams with equal names. -/
structure Bitstream where
  uuid : String
  name : String
deriving DecidableEq, Repr

/-- HALLink: `{ href }`. -/
structure HALLink where
  href : String
deriving DecidableEq, Repr

/-- The `_links` section of a Bundle; the service reads
`bundle._links.bitstreams.href`. -/
structure BundleLinks where
  bitstreams : HALLink
deriving DecidableEq, Repr

/-- Bundle: the service reads only `_links.bitstreams.href`. -/
structure Bundle where
  links : BundleLinks
deriving DecidableEq, Repr

/-- Item: identity only; it is passed opaquely to the bundle collaborator. -/
structure Item where
  uuid : String
deriving DecidableEq, Repr

/-- FindListOptions (from `request.models.ts`): the service only ever sets
`elementsPerPage`; fields are optional in TS. -/
structure FindListOptions where
  elementsPerPage : Option Nat
  currentPage : Option Nat
deriving DecidableEq, Repr

/-- FollowLinkConfig: passed through opaquely by the service. -/
structure FollowLinkConfig where
  relationName : String
deriving DecidableEq, Repr

/-- JS `String.prototype.startsWith(search)`: the receiver string begins
with the search string (character-wise prefix test). -/
def strStartsWith (s search : String) : Bool := search.data.isPrefixOf s.data

/-- JS `Number.MAX_SAFE_INTEGER` = 2^53 - 1, used by `getMatchingThumbnail`. -/
def maxSafeInteger : Nat := 9007199254740991

/-- hasValue from `empty.util.ts`: value is neither `null` nor `undefined`.
On an optional value this is exactly presence. -/
def hasValue {α : Type} (o : Option α) : Bool := o.isSome

/-- isNotEmpty from `empty.util.ts`: on an object-valued optional (a Bundle),
this is presence — an object carries no `length`, so it is never "empty". -/
def isNotEmpty {α : Type} (o : Option α) : Bool := o.isSome

/-- The TS return type of `getThumbnailFor` / `getMatchingThumbnail` is
`RemoteData<Bitstream>`, but the `as any` casts leak the collaborator
wrappers, whose payloads are a `Bundle` or a `PaginatedList<Bitstream>`.
This sum is the honest payload type of what callers can actually receive. -/
inductive AnyPayload where
  | bitstream (b : Bitstream)
  | page (l : PaginatedList Bitstream)
  | bundle (bd : Bundle)
deriving DecidableEq, Repr

/-- The `rd as any` cast: the same wrapper object, its payload viewed at the
leaked type.  All lifecycle fields and the error are those of `rd`. -/
def RemoteData.castFrom {α : Type} (f : α → AnyPayload) (rd : RemoteData α) :
    RemoteData AnyPayload :=
  ⟨rd.isRequestPending, rd.isResponsePending, rd.hasSucceeded, rd.error,
   rd.payload.map f⟩

/-- Collaborator type: `BundleDataService.findByItemAndName(item, name)`
(one emitted wrapper). -/
abbrev BundleFinder := Item → String → RemoteData Bundle

/-- Collaborator type: the inherited `DataService.findAllByHref(href,
options, ...linksToFollow)` (one emitted wrapper). -/
abbrev HrefFinder :=
  String → Option FindListOptions → List FollowLinkConfig →
    RemoteData (PaginatedList Bitstream)

/-- findAllByBundle: `findAllByHref(bundle._links.bitstreams.href, options,
...linksToFollow)`. -/
def findAllByBundle (findAllByHref : HrefFinder) (bundle : Bundle)
    (options : Option FindListOptions) (linksToFollow : List FollowLinkConfig) :
    RemoteData (PaginatedList Bitstream) :=
  findAllByHref bundle.links.bitstreams.href options linksToFollow

/-- getThumbnailFor: find the THUMBNAIL bundle; if its payload is not empty
(`isNotEmpty` on an optional object = presence, hence the `match`), list its
bitstreams with `elementsPerPage: 1`; if that wrapper has a payload with a
page (`hasValue` twice = both present), construct
`new RemoteData(false, false, true, undefined, page[0])` (`page[0]` is
`undefined` on an empty page, i.e. `List.head?`); otherwise return
`bitstreamRD as any`; with an empty bundle payload return `bundleRD as any`. -/
def getThumbnailFor (findByItemAndName : BundleFinder)
    (findAllByHref : HrefFinder) (item : Item) : RemoteData AnyPayload :=
  let bundleRD := findByItemAndName item "THUMBNAIL"
  match bundleRD.payload with
  | some bundle =>
    let bitstreamRD := findAllByBundle findAllByHref bundle
      (some ⟨some 1, none⟩) []
    match bitstreamRD.payload with
    | some pl =>
      match pl.page with
      | some page =>
        ⟨false, false, true, none, page.head?.map AnyPayload.bitstream⟩
      | none => bitstreamRD.castFrom AnyPayload.page
    | none => bitstreamRD.castFrom AnyPayload.page
  | none => bundleRD.castFrom AnyPayload.bundle

/-- getMatchingThumbnail: find the THUMBNAIL bundle; if present, list its
bitstreams with `elementsPerPage: Number.MAX_SAFE_INTEGER`; on a present
payload and page, `page.find(thumbnail => thumbnail.name.startsWith(
bitstreamInOriginal.name))`; if a match has a value, construct the success
wrapper around it, else construct
`new RemoteData(false, false, false, new RemoteDataError(404, '404',
'No matching thumbnail found'), undefined)`; otherwise the `as any` casts as
in getThumbnailFor. -/
def getMatchingThumbnail (findByItemAndName : BundleFinder)
    (findAllByHref : HrefFinder) (item : Item)
    (bitstreamInOriginal : Bitstream) : RemoteData AnyPayload :=
  let bundleRD := findByItemAndName item "THUMBNAIL"
  match bundleRD.payload with
  | some bundle =>
    let bitstreamRD := findAllByBundle findAllByHref bundle
      (some ⟨some maxSafeInteger, none⟩) []
    match bitstreamRD.payload with
    | some pl =>
      match pl.page with
      | some page =>
        match page.find? (fun thumbnail =>
            strStartsWith thumbnail.name bitstreamInOriginal.name) with
        | some matchingThumbnail =>
          ⟨false, false, true, none,
           some (AnyPayload.bitstream matchingThumbnail)⟩
        | none =>
          ⟨false, false, false,
           some ⟨404, "404", "No matching thumbnail found"⟩, none⟩
      | none => bitstreamRD.castFrom AnyPayload.page
    | none => bitstreamRD.castFrom AnyPayload.page
  | none => bundleRD.castFrom AnyPayload.bundle

/-- findAllByItemAndBundleName: find the named bundle; if its payload has a
value, delegate to findAllByBundle with the given options and links; else
return `bundleRD as any`.  The success branch is injected into the common
payload sum (`AnyPayload.page`), preserving every field. -/
def findAllByItemAndBundleName (findByItemAndName : BundleFinder)
    (findAllByHref : HrefFinder) (item : Item) (bundleName : String)
    (options : Option FindListOptions)
    (linksToFollow : List FollowLinkConfig) : RemoteData AnyPayload :=
  let bundleRD := findByItemAndName item bundleName
  match bundleRD.payload with
  | some bundle =>
    (findAllByBundle findAllByHref bundle options linksToFollow).castFrom
      AnyPayload.page
  | none => bundleRD.castFrom AnyPayload.bundle

/-- Modelled from the spec (§6, external-interface contract for the
bitstream client; `DataService.findAllByHref` itself is outside the slice):
"find bitstreams belonging to a named sub-collection of an item" is
implemented by first resolving the named sub-collection via a collaborator
client, then calling `findAllByHref` on its `bitstreams` relation, passing
the options and links; with an absent sub-collection payload the bundle
wrapper itself is emitted. -/
def findAllByItemAndBundleNameSpec (findByItemAndName : BundleFinder)
    (findAllByHref : HrefFinder) (item : Item) (bundleName : String)
    (options : Option FindListOptions)
    (linksToFollow : List FollowLinkConfig) : RemoteData AnyPayload :=
  let bundleRD := findByItemAndName item bundleName
  match bundleRD.payload with
  | some bundle =>
    (findAllByHref bundle.links.bitstreams.href options linksToFollow).castFrom
      AnyPayload.page
  | none => bundleRD.castFrom AnyPayload.bundle

/-- Wrapper invariant from the spec's data model: success implies no error;
completed failure implies an error is present. -/
def wrapperInvariant {α : Type} (rd : RemoteData α) : Prop :=
  (rd.hasSucceeded = true → rd.error = none) ∧
  (rd.hasSucceeded = false → rd.error.isSome = true)

/- Concrete fixtures used by witnesses and counterexamples. -/

def demoItem : Item := ⟨"0ec7ff22-f211-40ab-a69e-c819b0b1f357"⟩

def demoBundle : Bundle := ⟨⟨⟨"https://rest.api/core/bundles/b1/bitstreams"⟩⟩⟩

def demoCover : Bitstream := ⟨"bs-1", "cover.jpg"⟩

def demoOriginal : Bitstream := ⟨"bs-0", "document.pdf"⟩

def demoThumb : Bitstream := ⟨"bs-2", "document.pdf.jpg"⟩

def demoOther : Bitstream := ⟨"bs-3", "other.png"⟩

/-- A bundle collaborator that resolves the THUMBNAIL bundle successfully. -/
def fbnDemo : BundleFinder := fun _ _ => ⟨false, false, true, none, some demoBundle⟩

/-- A bundle collaborator whose lookup failed (payload absent). -/
def fbnNone : BundleFinder :=
  fun _ _ => ⟨false, false, false, some ⟨500, "500", "internal error"⟩, none⟩

/-- A listing collaborator returning the given page for every request. -/
def fahOf (page : Option (List Bitstream)) : HrefFinder :=
  fun _ _ _ => ⟨false, false, true, none, some ⟨page⟩⟩

/- Helper lemma shared by the first-match claims. -/

/-- Finding over a list split as `pre ++ m :: post`, where nothing in `pre`
satisfies the predicate and `m` does, returns `m`. -/
theorem find_of_split {α : Type} (p : α → Bool) (pre : List α) (m : α)
    (post : List α) (hpre : ∀ t ∈ pre, p t = false) (hm : p m = true) :
    (pre ++ m :: post).find? p = some m := by
  induction pre with
  | nil => simp [List.find?_cons_of_pos _ hm]
  | cons a as ih =>
    have ha : p a = false := hpre a (by simp)
    rw [List.cons_append, List.find?_cons_of_neg _ (by simp [ha])]
    exact ih (fun t ht => hpre t (by simp [ht]))

/-- C1: when the THUMBNAIL bundle resolves with a non-empty payload and the
bitstream page contains no bitstream whose name starts with the original
bitstream's name, getMatchingThumbnail emits a Failed wrapper
(hasSucceeded = false) whose error has statusCode 404 and message
"No matching thumbnail found". -/
theorem getMatchingThumbnail_noMatch_404 (fbn : BundleFinder)
    (fah : HrefFinder) (item : Item) (orig : Bitstream) (bundle : Bundle)
    (pl : PaginatedList Bitstream) (page : List Bitstream)
    (hb : (fbn item "THUMBNAIL").payload = some bundle)
    (hp : (fah bundle.links.bitstreams.href
            (some ⟨some maxSafeInteger, none⟩) []).payload = some pl)
    (hpage : pl.page = some page)
    (hnone : ∀ t ∈ page, strStartsWith t.name orig.name = false) :
    getMatchingThumbnail fbn fah item orig =
      ⟨false, false, false, some ⟨404, "404", "No matching thumbnail found"⟩,
       none⟩ := by
  have hfind : page.find? (fun t => strStartsWith t.name orig.name) = none := by
    rw [List.find?_eq_none]
    intro x hx
    simp [hnone x hx]
  simp only [getMatchingThumbnail, findAllByBundle, hb, hp, hpage, hfind]

/-- Witness for C1 at concrete inputs: the only bitstream in the THUMBNAIL
bundle is "other.png", which does not start with "document.pdf". -/
theorem getMatchingThumbnail_noMatch_404_witness :
    (fbnDemo demoItem "THUMBNAIL").payload = some demoBundle
    ∧ (fahOf (some [demoOther]) demoBundle.links.bitstreams.href
        (some ⟨some maxSafeInteger, none⟩) []).payload = some ⟨some [demoOther]⟩
    ∧ getMatchingThumbnail fbnDemo (fahOf (some [demoOther])) demoItem
        demoOriginal =
      ⟨false, false, false, some ⟨404, "404", "No matching thumbnail found"⟩,
       none⟩ :=
  ⟨rfl, rfl,
   getMatchingThumbnail_noMatch_404 fbnDemo (fahOf (some [demoOther]))
     demoItem demoOriginal demoBundle ⟨some [demoOther]⟩ [demoOther]
     rfl rfl rfl (by decide)⟩

/-- C2 counterexample: the claim "when the first element of the size-1 page
is absent, getThumbnailFor emits a Failed wrapper carrying a synthesized 404"
is false: with the THUMBNAIL bundle present and an empty (but present)
bitstream page, getThumbnailFor emits hasSucceeded = true with no error. -/
theorem getThumbnailFor_claim404_counterexample :
    (fahOf (some []) demoBundle.links.bitstreams.href (some ⟨some 1, none⟩)
        []).payload = some ⟨some []⟩
    ∧ (getThumbnailFor fbnDemo (fahOf (some [])) demoItem).hasSucceeded = true
    ∧ (getThumbnailFor fbnDemo (fahOf (some [])) demoItem).error = none :=
  ⟨rfl, rfl, rfl⟩

/-- C2 amended: getThumbnailFor synthesizes no 404.  When the THUMBNAIL
sub-collection is absent it forwards the sub-collection lookup's own
wrapper; when the page is present but its first element is absent it emits a
Success wrapper (hasSucceeded = true, no error) with an absent payload. -/
theorem getThumbnailFor_absent_cases (fbn : BundleFinder) (fah : HrefFinder)
    (item : Item) :
    ((fbn item "THUMBNAIL").payload = none →
      getThumbnailFor fbn fah item =
        ⟨(fbn item "THUMBNAIL").isRequestPending,
         (fbn item "THUMBNAIL").isResponsePending,
         (fbn item "THUMBNAIL").hasSucceeded,
         (fbn item "THUMBNAIL").error, none⟩)
    ∧ (∀ (bundle : Bundle) (pl : PaginatedList Bitstream),
        (fbn item "THUMBNAIL").payload = some bundle →
        (fah bundle.links.bitstreams.href (some ⟨some 1, none⟩) []).payload =
          some pl →
        pl.page = some [] →
        getThumbnailFor fbn fah item = ⟨false, false, true, none, none⟩) := by
  constructor
  · intro h
    simp only [getThumbnailFor, h, RemoteData.castFrom, Option.map_none']
  · intro bundle pl hb hp hpage
    simp only [getThumbnailFor, findAllByBundle, hb, hp, hpage,
      List.head?_nil, Option.map_none']

/-- Witness for C2 amended: both branches at concrete inputs. -/
theorem getThumbnailFor_absent_cases_witness :
    (getThumbnailFor fbnNone (fahOf (some [demoCover])) demoItem =
      ⟨false, false, false, some ⟨500, "500", "internal error"⟩, none⟩)
    ∧ (getThumbnailFor fbnDemo (fahOf (some [])) demoItem =
      ⟨false, false, true, none, none⟩) :=
  ⟨(getThumbnailFor_absent_cases fbnNone (fahOf (some [demoCover]))
      demoItem).1 rfl,
   (getThumbnailFor_absent_cases fbnDemo (fahOf (some []))
      demoItem).2 demoBundle ⟨some []⟩ rfl rfl rfl⟩

/-- C3: when the THUMBNAIL bundle resolves with a non-empty payload and the
size-1 bitstream page (requested with elementsPerPage = 1) has at least one
element, getThumbnailFor emits a Success wrapper (hasSucceeded = true, no
error) whose payload is the first element of that page. -/
theorem getThumbnailFor_first_of_page (fbn : BundleFinder) (fah : HrefFinder)
    (item : Item) (bundle : Bundle) (pl : PaginatedList Bitstream)
    (b : Bitstream) (rest : List Bitstream)
    (hb : (fbn item "THUMBNAIL").payload = some bundle)
    (hp : (fah bundle.links.bitstreams.href (some ⟨some 1, none⟩) []).payload =
      some pl)
    (hpage : pl.page = some (b :: rest)) :
    getThumbnailFor fbn fah item =
      ⟨false, false, true, none, some (AnyPayload.bitstream b)⟩ := by
  simp only [getThumbnailFor, findAllByBundle, hb, hp, hpage,
    List.head?_cons, Option.map_some']

/-- Witness for C3: a THUMBNAIL bundle with the single bitstream
"cover.jpg" yields a Success wrapper with that bitstream as payload. -/
theorem getThumbnailFor_first_of_page_witness :
    (fbnDemo demoItem "THUMBNAIL").payload = some demoBundle
    ∧ getThumbnailFor fbnDemo (fahOf (some [demoCover])) demoItem =
      ⟨false, false, true, none, some (AnyPayload.bitstream demoCover)⟩ :=
  ⟨rfl,
   getThumbnailFor_first_of_page fbnDemo (fahOf (some [demoCover])) demoItem
     demoBundle ⟨some [demoCover]⟩ demoCover [] rfl rfl rfl⟩

/-- C4: when the THUMBNAIL bundle resolves with a non-empty payload and the
page splits as `pre ++ m :: post` where nothing in `pre` matches and `m`'s
name starts with the original bitstream's name, getMatchingThumbnail emits a
Success wrapper whose payload is `m` — the first match in page order. -/
theorem getMatchingThumbnail_first_match (fbn : BundleFinder)
    (fah : HrefFinder) (item : Item) (orig : Bitstream) (bundle : Bundle)
    (pl : PaginatedList Bitstream) (pre : List Bitstream) (m : Bitstream)
    (post : List Bitstream)
    (hb : (fbn item "THUMBNAIL").payload = some bundle)
    (hp : (fah bundle.links.bitstreams.href
            (some ⟨some maxSafeInteger, none⟩) []).payload = some pl)
    (hpage : pl.page = some (pre ++ m :: post))
    (hpre : ∀ t ∈ pre, strStartsWith t.name orig.name = false)
    (hm : strStartsWith m.name orig.name = true) :
    getMatchingThumbnail fbn fah item orig =
      ⟨false, false, true, none, some (AnyPayload.bitstream m)⟩ := by
  have hfind := find_of_split (fun t => strStartsWith t.name orig.name)
    pre m post hpre hm
  simp only [getMatchingThumbnail, findAllByBundle, hb, hp, hpage, hfind]

/-- Witness for C4: page ["other.png", "document.pdf.jpg", "cover.jpg"];
the first bitstream whose name starts with "document.pdf" is the second. -/
theorem getMatchingThumbnail_first_match_witness :
    getMatchingThumbnail fbnDemo
        (fahOf (some [demoOther, demoThumb, demoCover])) demoItem
        demoOriginal =
      ⟨false, false, true, none, some (AnyPayload.bitstream demoThumb)⟩ :=
  getMatchingThumbnail_first_match fbnDemo
    (fahOf (some [demoOther, demoThumb, demoCover])) demoItem demoOriginal
    demoBundle ⟨some [demoOther, demoThumb, demoCover]⟩ [demoOther] demoThumb
    [demoCover] rfl rfl rfl (by decide) (by decide)

/-- C5: when the THUMBNAIL bundle lookup's wrapper has an empty payload,
getThumbnailFor emits that wrapper itself unchanged (every lifecycle field
and the error are the bundle wrapper's own; the payload stays absent). -/
theorem getThumbnailFor_empty_bundle_mirrors (fbn : BundleFinder)
    (fah : HrefFinder) (item : Item)
    (h : (fbn item "THUMBNAIL").payload = none) :
    getThumbnailFor fbn fah item =
      ⟨(fbn item "THUMBNAIL").isRequestPending,
       (fbn item "THUMBNAIL").isResponsePending,
       (fbn item "THUMBNAIL").hasSucceeded,
       (fbn item "THUMBNAIL").error,
       (fbn item "THUMBNAIL").payload.map AnyPayload.bundle⟩ := by
  simp only [getThumbnailFor, h, RemoteData.castFrom]

/-- Witness for C5: a failed bundle lookup (500, payload absent) is
forwarded unchanged by getThumbnailFor. -/
theorem getThumbnailFor_empty_bundle_mirrors_witness :
    (fbnNone demoItem "THUMBNAIL").payload = none
    ∧ getThumbnailFor fbnNone (fahOf (some [demoCover])) demoItem =
      ⟨false, false, false, some ⟨500, "500", "internal error"⟩, none⟩ :=
  ⟨rfl,
   getThumbnailFor_empty_bundle_mirrors fbnNone (fahOf (some [demoCover]))
     demoItem rfl⟩

/-- C6: findAllByItemAndBundleName is exactly the composition the spec
describes — resolve the named bundle via the bundle collaborator's
findByItemAndName, then, when the bundle payload is present, call
findAllByHref on the bundle's bitstreams relation href with the given
options and links; when absent, emit the bundle wrapper itself. -/
theorem findAllByItemAndBundleName_refines_spec (fbn : BundleFinder)
    (fah : HrefFinder) (item : Item) (bundleName : String)
    (options : Option FindListOptions) (links : List FollowLinkConfig) :
    findAllByItemAndBundleName fbn fah item bundleName options links =
      findAllByItemAndBundleNameSpec fbn fah item bundleName options links :=
  rfl

/-- C7: in the branches where the service constructs its own wrappers (the
THUMBNAIL bundle resolved and the listing wrapper carries a page, for both
page sizes), both getThumbnailFor's and getMatchingThumbnail's results
satisfy the wrapper invariant: success implies no error, failure implies an
error is present. -/
theorem constructed_wrappers_satisfy_invariant (fbn : BundleFinder)
    (fah : HrefFinder) (item : Item) (orig : Bitstream) (bundle : Bundle)
    (pl1 plM : PaginatedList Bitstream) (page1 pageM : List Bitstream)
    (hb : (fbn item "THUMBNAIL").payload = some bundle)
    (hp1 : (fah bundle.links.bitstreams.href (some ⟨some 1, none⟩)
        []).payload = some pl1)
    (hpage1 : pl1.page = some page1)
    (hpM : (fah bundle.links.bitstreams.href
        (some ⟨some maxSafeInteger, none⟩) []).payload = some plM)
    (hpageM : plM.page = some pageM) :
    wrapperInvariant (getThumbnailFor fbn fah item)
    ∧ wrapperInvariant (getMatchingThumbnail fbn fah item orig) := by
  constructor
  · simp only [getThumbnailFor, findAllByBundle, hb, hp1, hpage1,
      wrapperInvariant]
    simp
  · rcases hfind : pageM.find? (fun t => strStartsWith t.name orig.name)
      with _ | m
    · simp only [getMatchingThumbnail, findAllByBundle, hb, hpM, hpageM,
        hfind, wrapperInvariant]
      simp
    · simp only [getMatchingThumbnail, findAllByBundle, hb, hpM, hpageM,
        hfind, wrapperInvariant]
      simp

/-- Witness for C7: with the THUMBNAIL bundle present and a one-element
page, both results satisfy the wrapper invariant. -/
theorem constructed_wrappers_satisfy_invariant_witness :
    wrapperInvariant (getThumbnailFor fbnDemo (fahOf (some [demoCover]))
      demoItem)
    ∧ wrapperInvariant (getMatchingThumbnail fbnDemo
        (fahOf (some [demoCover])) demoItem demoOriginal) :=
  constructed_wrappers_satisfy_invariant fbnDemo (fahOf (some [demoCover]))
    demoItem demoOriginal demoBundle ⟨some [demoCover]⟩ ⟨some [demoCover]⟩
    [demoCover] [demoCover] rfl rfl rfl rfl rfl

/-- C8: none of the four public operations can escape with anything but a
wrapper: for every input and collaborator behaviour, each result is either a
collaborator wrapper passed through (the `as any` casts) or a wrapper the
service itself constructs (the success wrappers and the synthesized 404) —
an exhaustive enumeration of delivered states, with no other outcome. -/
theorem service_outputs_are_wrapper_states (fbn : BundleFinder)
    (fah : HrefFinder) (item : Item) (orig : Bitstream) (bundle : Bundle)
    (bundleName : String) (options : Option FindListOptions)
    (links : List FollowLinkConfig) :
    (getThumbnailFor fbn fah item =
        (fbn item "THUMBNAIL").castFrom AnyPayload.bundle
      ∨ (∃ b, (fbn item "THUMBNAIL").payload = some b ∧
          getThumbnailFor fbn fah item =
            (fah b.links.bitstreams.href (some ⟨some 1, none⟩) []).castFrom
              AnyPayload.page)
      ∨ (∃ p, getThumbnailFor fbn fah item = ⟨false, false, true, none, p⟩))
    ∧ (getMatchingThumbnail fbn fah item orig =
        (fbn item "THUMBNAIL").castFrom AnyPayload.bundle
      ∨ (∃ b, (fbn item "THUMBNAIL").payload = some b ∧
          getMatchingThumbnail fbn fah item orig =
            (fah b.links.bitstreams.href (some ⟨some maxSafeInteger, none⟩)
              []).castFrom AnyPayload.page)
      ∨ (∃ m, getMatchingThumbnail fbn fah item orig =
            ⟨false, false, true, none, some (AnyPayload.bitstream m)⟩)
      ∨ getMatchingThumbnail fbn fah item orig =
          ⟨false, false, false,
           some ⟨404, "404", "No matching thumbnail found"⟩, none⟩)
    ∧ findAllByBundle fah bundle options links =
        fah bundle.links.bitstreams.href options links
    ∧ (findAllByItemAndBundleName fbn fah item bundleName options links =
        (fbn item bundleName).castFrom AnyPayload.bundle
      ∨ (∃ b, (fbn item bundleName).payload = some b ∧
          findAllByItemAndBundleName fbn fah item bundleName options links =
            (fah b.links.bitstreams.href options links).castFrom
              AnyPayload.page)) := by
  refine ⟨?_, ?_, rfl, ?_⟩
  · rcases hb : (fbn item "THUMBNAIL").payload with _ | b
    · exact Or.inl (by simp only [getThumbnailFor, hb])
    · rcases hp : (fah b.links.bitstreams.href (some ⟨some 1, none⟩)
          []).payload with _ | pl
      · exact Or.inr (Or.inl ⟨b, rfl,
          by simp only [getThumbnailFor, findAllByBundle, hb, hp]⟩)
      · rcases hpage : pl.page with _ | page
        · exact Or.inr (Or.inl ⟨b, rfl,
            by simp only [getThumbnailFor, findAllByBundle, hb, hp, hpage]⟩)
        · exact Or.inr (Or.inr ⟨page.head?.map AnyPayload.bitstream,
            by simp only [getThumbnailFor, findAllByBundle, hb, hp, hpage]⟩)
  · rcases hb : (fbn item "THUMBNAIL").payload with _ | b
    · exact Or.inl (by simp only [getMatchingThumbnail, hb])
    · rcases hp : (fah b.links.bitstreams.href
          (some ⟨some maxSafeInteger, none⟩) []).payload with _ | pl
      · exact Or.inr (Or.inl ⟨b, rfl,
          by simp only [getMatchingThumbnail, findAllByBundle, hb, hp]⟩)
      · rcases hpage : pl.page with _ | page
        · exact Or.inr (Or.inl ⟨b, rfl,
            by simp only [getMatchingThumbnail, findAllByBundle, hb, hp,
              hpage]⟩)
        · rcases hfind : page.find? (fun t => strStartsWith t.name orig.name)
            with _ | m
          · exact Or.inr (Or.inr (Or.inr
              (by simp only [getMatchingThumbnail, findAllByBundle, hb, hp,
                hpage, hfind])))
          · exact Or.inr (Or.inr (Or.inl ⟨m,
              by simp only [getMatchingThumbnail, findAllByBundle, hb, hp,
                hpage, hfind]⟩))
  · rcases hb : (fbn item bundleName).payload with _ | b
    · exact Or.inl (by simp only [findAllByItemAndBundleName, hb])
    · exact Or.inr ⟨b, rfl,
        by simp only [findAllByItemAndBundleName, findAllByBundle, hb]⟩

/-- C9: with the THUMBNAIL bundle present and a successful bitstream listing
whose page is present but empty, getThumbnailFor emits hasSucceeded = true
with an absent payload and no error — not a Failed wrapper. -/
theorem getThumbnailFor_emptyPage_succeeds (fbn : BundleFinder)
    (fah : HrefFinder) (item : Item) (bundle : Bundle)
    (pl : PaginatedList Bitstream)
    (hb : (fbn item "THUMBNAIL").payload = some bundle)
    (_hs : (fah bundle.links.bitstreams.href (some ⟨some 1, none⟩)
        []).hasSucceeded = true)
    (hp : (fah bundle.links.bitstreams.href (some ⟨some 1, none⟩)
        []).payload = some pl)
    (hpage : pl.page = some []) :
    (getThumbnailFor fbn fah item).hasSucceeded = true
    ∧ (getThumbnailFor fbn fah item).payload = none
    ∧ (getThumbnailFor fbn fah item).error = none := by
  simp only [getThumbnailFor, findAllByBundle, hb, hp, hpage, List.head?_nil,
    Option.map_none']
  exact ⟨trivial, trivial, trivial⟩

/-- Witness for C9 at the concrete empty page. -/
theorem getThumbnailFor_emptyPage_succeeds_witness :
    (fahOf (some []) demoBundle.links.bitstreams.href (some ⟨some 1, none⟩)
        []).hasSucceeded = true
    ∧ ((getThumbnailFor fbnDemo (fahOf (some [])) demoItem).hasSucceeded =
        true
      ∧ (getThumbnailFor fbnDemo (fahOf (some [])) demoItem).payload = none
      ∧ (getThumbnailFor fbnDemo (fahOf (some [])) demoItem).error = none) :=
  ⟨rfl, getThumbnailFor_emptyPage_succeeds fbnDemo (fahOf (some [])) demoItem
    demoBundle ⟨some []⟩ rfl rfl rfl rfl⟩

/-- C10: getMatchingThumbnail's result depends on the listing collaborator
only through requests with elementsPerPage = Number.MAX_SAFE_INTEGER (so the
match search sees the whole bundle in one page), while getThumbnailFor's
depends on it only through requests with elementsPerPage = 1: collaborators
agreeing on those options alone yield identical results. -/
theorem bitstream_listing_options (fbn : BundleFinder) (item : Item)
    (orig : Bitstream) :
    (∀ f g : HrefFinder,
      (∀ href links, f href (some ⟨some maxSafeInteger, none⟩) links =
        g href (some ⟨some maxSafeInteger, none⟩) links) →
      getMatchingThumbnail fbn f item orig =
        getMatchingThumbnail fbn g item orig)
    ∧ (∀ f g : HrefFinder,
      (∀ href links, f href (some ⟨some 1, none⟩) links =
        g href (some ⟨some 1, none⟩) links) →
      getThumbnailFor fbn f item = getThumbnailFor fbn g item) := by
  constructor
  · intro f g hfg
    rcases hb : (fbn item "THUMBNAIL").payload with _ | b
    · simp only [getMatchingThumbnail, hb]
    · simp only [getMatchingThumbnail, findAllByBundle, hb, hfg]
  · intro f g hfg
    rcases hb : (fbn item "THUMBNAIL").payload with _ | b
    · simp only [getThumbnailFor, hb]
    · simp only [getThumbnailFor, findAllByBundle, hb, hfg]

/-- A listing collaborator stuck in the pending state. -/
def fahPending : HrefFinder := fun _ _ _ => ⟨true, true, false, none, none⟩

/-- Agrees with `fahOf (some [demoThumb])` on every request except those
with elementsPerPage = 1, where it is pending instead. -/
def fahAltMax : HrefFinder := fun href o links =>
  if o = some ⟨some 1, none⟩ then fahPending href o links
  else fahOf (some [demoThumb]) href o links

/-- Agrees with `fahOf (some [demoCover])` on every request except those
with elementsPerPage = Number.MAX_SAFE_INTEGER, where it is pending. -/
def fahAlt1 : HrefFinder := fun href o links =>
  if o = some ⟨some maxSafeInteger, none⟩ then fahPending href o links
  else fahOf (some [demoCover]) href o links

/-- Witness for C10: swapping the collaborator for one that differs at the
other page size leaves each result unchanged. -/
theorem bitstream_listing_options_witness :
    getMatchingThumbnail fbnDemo (fahOf (some [demoThumb])) demoItem
        demoOriginal =
      getMatchingThumbnail fbnDemo fahAltMax demoItem demoOriginal
    ∧ getThumbnailFor fbnDemo (fahOf (some [demoCover])) demoItem =
      getThumbnailFor fbnDemo fahAlt1 demoItem :=
  ⟨(bitstream_listing_options fbnDemo demoItem demoOriginal).1 _ _
      (fun href links => by
        simp only [fahAltMax]
        rw [if_neg (by decide)]),
   (bitstream_listing_options fbnDemo demoItem demoOriginal).2 _ _
      (fun href links => by
        simp only [fahAlt1]
        rw [if_neg (by decide)])⟩

end DSpace
